import Mathlib

/-!
Verification of the version-sniffing dispatch core of a dbt-artifact parsing
library, shallowly embedded from the TypeScript sources.

Each artifact category (run_results, manifest, sources, catalog) exposes:
a version extractor (regex over the metadata schema identifier string),
a structural validator, a switch-based dispatch over the supported version
range, an auto-detect entry point and one pinned entry point per version.
The runtime value returned on success is the input object itself, relabeled
with the detected version tag.
-/

/-- Model of a JSON-decoded JavaScript value, as produced by an external
JSON decoder and handed to the parsing core. -/
inductive Json where
  | null : Json
  | bool (b : Bool) : Json
  | num (n : Int) : Json
  | str (s : String) : Json
  | arr (elems : List Json) : Json
  | obj (fields : List (String × Json)) : Json

/-- JavaScript `typeof` on a JSON-decoded value (`typeof null` is "object",
and arrays and objects are both "object"). -/
def Json.typeof : Json → String
  | .null => "object"
  | .bool _ => "boolean"
  | .num _ => "number"
  | .str _ => "string"
  | .arr _ => "object"
  | .obj _ => "object"

/-- JavaScript truthiness of a JSON-decoded value: `null`, `false`, `0` and
the empty string are falsy; arrays and objects are always truthy. -/
def Json.truthy : Json → Bool
  | .null => false
  | .bool b => b
  | .num n => n != 0
  | .str s => s != ""
  | .arr _ => true
  | .obj _ => true

/-- Property access `j[k]`: on an object, the value bound to key `k`
(if present); on every other value the access yields `undefined`,
modeled as `none`. -/
def Json.getField (j : Json) (k : String) : Option Json :=
  match j with
  | .obj fields => (fields.find? (fun p => p.1 == k)).map (fun p => p.2)
  | _ => none

/-- JavaScript `k in j` as used by the guards: true exactly when `j` is an
object carrying key `k`. -/
def Json.hasKey (j : Json) (k : String) : Bool :=
  (j.getField k).isSome

/-- If `lit` is a prefix of `l`, return the remainder of `l`, else fail. -/
def dropLit : List Char → List Char → Option (List Char)
  | [], l => some l
  | _ :: _, [] => none
  | c :: cs, d :: ds => if c = d then dropLit cs ds else none

/-- `parseInt(ds, 10)` on a string of decimal digits: the decimal value of
the digit list, most significant digit first. -/
def digitsToNat (ds : List Char) : Nat :=
  ds.foldl (fun a c => a * 10 + (c.toNat - 48)) 0

/-- The anchored regex `/<marker>(\d+)\.json$/` of the version extractors
(`marker` is the literal `/<category>/v`): succeed exactly when the string
ends with `marker`, then one or more decimal digits, then `.json`, and
return the decimal value of the digit run. Implemented by scanning the
reversed character list: strip `.json`, take the maximal digit run, then
require the marker immediately before it. -/
def matchVersionSuffix (marker : String) (s : String) : Option Nat :=
  match dropLit (".json".data.reverse) s.data.reverse with
  | none => none
  | some r1 =>
    let ds := r1.takeWhile Char.isDigit
    let rest := r1.dropWhile Char.isDigit
    if ds = [] then none
    else
      match dropLit marker.data.reverse rest with
      | none => none
      | some _ => some (digitsToNat ds.reverse)

/-- Common body of `getRunResultsVersion` / `getManifestVersion` /
`getSourcesVersion` / `getCatalogVersion`: apply the category's anchored
version regex; on no match throw
`Invalid dbt schema version format: {s}`. -/
def getArtifactVersion (label : String) (s : String) : Except String Nat :=
  match matchVersionSuffix ("/" ++ label ++ "/v") s with
  | some v => .ok v
  | none => .error s!"Invalid dbt schema version format: {s}"

/-- `getRunResultsVersion` from `run_results/index.ts`. -/
def getRunResultsVersion (s : String) : Except String Nat :=
  getArtifactVersion "run-results" s

/-- `getManifestVersion` from `manifest/index.ts`. -/
def getManifestVersion (s : String) : Except String Nat :=
  getArtifactVersion "manifest" s

/-- `getSourcesVersion` from `sources/index.ts`. -/
def getSourcesVersion (s : String) : Except String Nat :=
  getArtifactVersion "sources" s

/-- `getCatalogVersion` from `catalog/index.ts`. -/
def getCatalogVersion (s : String) : Except String Nat :=
  getArtifactVersion "catalog" s

/-- Common body of the four `validate<X>AndGetVersion` functions: the
structural guard (input truthy, an object, with a `metadata` key; metadata
truthy, an object, with a string-valued `dbt_schema_version`), then the
version extractor, then — for the version-pinned entry points — the
expected-version comparison. -/
def validateArtifactAndGetVersion (label : String) (r : Json)
    (expected : Option Nat) : Except String Nat :=
  if !r.truthy || !(r.typeof == "object") || !(r.hasKey "metadata") then
    .error s!"Not a {label}.json"
  else
    match r.getField "metadata" with
    | none => .error s!"Not a {label}.json"
    | some md =>
      if !md.truthy || !(md.typeof == "object") then
        .error s!"Not a {label}.json"
      else
        match md.getField "dbt_schema_version" with
        | some (.str s) =>
          (match getArtifactVersion label s with
           | .error e => .error e
           | .ok version =>
             match expected with
             | some k =>
               if version ≠ k then .error s!"Not a {label}.json v{k}"
               else .ok version
             | none => .ok version)
        | _ => .error s!"Not a {label}.json"

/-- `validateRunResultsAndGetVersion` from `run_results/index.ts`. -/
def validateRunResultsAndGetVersion (r : Json) (expected : Option Nat) :
    Except String Nat :=
  validateArtifactAndGetVersion "run-results" r expected

/-- `validateManifestAndGetVersion` from `manifest/index.ts`. -/
def validateManifestAndGetVersion (r : Json) (expected : Option Nat) :
    Except String Nat :=
  validateArtifactAndGetVersion "manifest" r expected

/-- `validateSourcesAndGetVersion` from `sources/index.ts`. -/
def validateSourcesAndGetVersion (r : Json) (expected : Option Nat) :
    Except String Nat :=
  validateArtifactAndGetVersion "sources" r expected

/-- `validateCatalogAndGetVersion` from `catalog/index.ts`. -/
def validateCatalogAndGetVersion (r : Json) (expected : Option Nat) :
    Except String Nat :=
  validateArtifactAndGetVersion "catalog" r expected

/-- The `switch (version)` of `parseRunResults`: cases 1..6 each select the
corresponding contract tag; the default case throws
`Unsupported run-results version: {v}`. Stated over `Int` so that the
dispatch step is also defined on non-positive version numbers. -/
def dispatchRunResults (v : Int) : Except String Nat :=
  if v = 1 then .ok 1
  else if v = 2 then .ok 2
  else if v = 3 then .ok 3
  else if v = 4 then .ok 4
  else if v = 5 then .ok 5
  else if v = 6 then .ok 6
  else .error s!"Unsupported run-results version: {v}"

/-- The `switch (version)` of `parseManifest`: cases 1..12. -/
def dispatchManifest (v : Int) : Except String Nat :=
  if v = 1 then .ok 1
  else if v = 2 then .ok 2
  else if v = 3 then .ok 3
  else if v = 4 then .ok 4
  else if v = 5 then .ok 5
  else if v = 6 then .ok 6
  else if v = 7 then .ok 7
  else if v = 8 then .ok 8
  else if v = 9 then .ok 9
  else if v = 10 then .ok 10
  else if v = 11 then .ok 11
  else if v = 12 then .ok 12
  else .error s!"Unsupported manifest version: {v}"

/-- The `switch (version)` of `parseSources`: cases 1..3. -/
def dispatchSources (v : Int) : Except String Nat :=
  if v = 1 then .ok 1
  else if v = 2 then .ok 2
  else if v = 3 then .ok 3
  else .error s!"Unsupported sources version: {v}"

/-- The `switch (version)` of `parseCatalog`: case 1 only. -/
def dispatchCatalog (v : Int) : Except String Nat :=
  if v = 1 then .ok 1
  else .error s!"Unsupported catalog version: {v}"

/-- `parseRunResults`: validate (structural guard + version extraction),
then dispatch through the switch; the success value is the input object
itself, relabeled with the selected contract tag. -/
def parseRunResults (r : Json) : Except String (Nat × Json) :=
  match validateRunResultsAndGetVersion r none with
  | .error e => .error e
  | .ok v =>
    match dispatchRunResults (v : Int) with
    | .error e => .error e
    | .ok t => .ok (t, r)

/-- `parseManifest` from `manifest/index.ts`. -/
def parseManifest (r : Json) : Except String (Nat × Json) :=
  match validateManifestAndGetVersion r none with
  | .error e => .error e
  | .ok v =>
    match dispatchManifest (v : Int) with
    | .error e => .error e
    | .ok t => .ok (t, r)

/-- `parseSources` from `sources/index.ts`. -/
def parseSources (r : Json) : Except String (Nat × Json) :=
  match validateSourcesAndGetVersion r none with
  | .error e => .error e
  | .ok v =>
    match dispatchSources (v : Int) with
    | .error e => .error e
    | .ok t => .ok (t, r)

/-- `parseCatalog` from `catalog/index.ts`. -/
def parseCatalog (r : Json) : Except String (Nat × Json) :=
  match validateCatalogAndGetVersion r none with
  | .error e => .error e
  | .ok v =>
    match dispatchCatalog (v : Int) with
    | .error e => .error e
    | .ok t => .ok (t, r)

/-- Common body of the version-pinned entry points `parse<X>V<k>`:
`validate<X>AndGetVersion(raw, k)` and then return the input relabeled
with tag `k`. -/
def pinnedParse (label : String) (k : Nat) (r : Json) :
    Except String (Nat × Json) :=
  match validateArtifactAndGetVersion label r (some k) with
  | .error e => .error e
  | .ok _ => .ok (k, r)

/-- `parseRunResultsV1` from `run_results/index.ts`. -/
def parseRunResultsV1 (r : Json) : Except String (Nat × Json) :=
  pinnedParse "run-results" 1 r

/-- `parseRunResultsV2` from `run_results/index.ts`. -/
def parseRunResultsV2 (r : Json) : Except String (Nat × Json) :=
  pinnedParse "run-results" 2 r

/-- `parseRunResultsV3` from `run_results/index.ts`. -/
def parseRunResultsV3 (r : Json) : Except String (Nat × Json) :=
  pinnedParse "run-results" 3 r

/-- `parseRunResultsV4` from `run_results/index.ts`. -/
def parseRunResultsV4 (r : Json) : Except String (Nat × Json) :=
  pinnedParse "run-results" 4 r

/-- `parseRunResultsV5` from `run_results/index.ts`. -/
def parseRunResultsV5 (r : Json) : Except String (Nat × Json) :=
  pinnedParse "run-results" 5 r

/-- `parseRunResultsV6` from `run_results/index.ts`. -/
def parseRunResultsV6 (r : Json) : Except String (Nat × Json) :=
  pinnedParse "run-results" 6 r

/-- `parseManifestV1` from `manifest/index.ts`. -/
def parseManifestV1 (r : Json) : Except String (Nat × Json) :=
  pinnedParse "manifest" 1 r

/-- `parseManifestV2` from `manifest/index.ts`. -/
def parseManifestV2 (r : Json) : Except String (Nat × Json) :=
  pinnedParse "manifest" 2 r

/-- `parseManifestV3` from `manifest/index.ts`. -/
def parseManifestV3 (r : Json) : Except String (Nat × Json) :=
  pinnedParse "manifest" 3 r

/-- `parseManifestV4` from `manifest/index.ts`. -/
def parseManifestV4 (r : Json) : Except String (Nat × Json) :=
  pinnedParse "manifest" 4 r

/-- `parseManifestV5` from `manifest/index.ts`. -/
def parseManifestV5 (r : Json) : Except String (Nat × Json) :=
  pinnedParse "manifest" 5 r

/-- `parseManifestV6` from `manifest/index.ts`. -/
def parseManifestV6 (r : Json) : Except String (Nat × Json) :=
  pinnedParse "manifest" 6 r

/-- `parseManifestV7` from `manifest/index.ts`. -/
def parseManifestV7 (r : Json) : Except String (Nat × Json) :=
  pinnedParse "manifest" 7 r

/-- `parseManifestV8` from `manifest/index.ts`. -/
def parseManifestV8 (r : Json) : Except String (Nat × Json) :=
  pinnedParse "manifest" 8 r

/-- `parseManifestV9` from `manifest/index.ts`. -/
def parseManifestV9 (r : Json) : Except String (Nat × Json) :=
  pinnedParse "manifest" 9 r

/-- `parseManifestV10` from `manifest/index.ts`. -/
def parseManifestV10 (r : Json) : Except String (Nat × Json) :=
  pinnedParse "manifest" 10 r

/-- `parseManifestV11` from `manifest/index.ts`. -/
def parseManifestV11 (r : Json) : Except String (Nat × Json) :=
  pinnedParse "manifest" 11 r

/-- `parseManifestV12` from `manifest/index.ts`. -/
def parseManifestV12 (r : Json) : Except String (Nat × Json) :=
  pinnedParse "manifest" 12 r

/-- `parseSourcesV1` from `sources/index.ts`. -/
def parseSourcesV1 (r : Json) : Except String (Nat × Json) :=
  pinnedParse "sources" 1 r

/-- `parseSourcesV2` from `sources/index.ts`. -/
def parseSourcesV2 (r : Json) : Except String (Nat × Json) :=
  pinnedParse "sources" 2 r

/-- `parseSourcesV3` from `sources/index.ts`. -/
def parseSourcesV3 (r : Json) : Except String (Nat × Json) :=
  pinnedParse "sources" 3 r

/-- `parseCatalogV1` from `catalog/index.ts`. -/
def parseCatalogV1 (r : Json) : Except String (Nat × Json) :=
  pinnedParse "catalog" 1 r

/-- A structurally invalid input, in the sense of the structural guard:
falsy, not an object, lacking a `metadata` key, or whose metadata is falsy,
not an object, or lacks a string-valued `dbt_schema_version` field. -/
def structurallyInvalid (r : Json) : Prop :=
  r.truthy = false ∨ r.typeof ≠ "object" ∨ r.getField "metadata" = none ∨
    (∃ md, r.getField "metadata" = some md ∧
      (md.truthy = false ∨ md.typeof ≠ "object" ∨
        ∀ s, md.getField "dbt_schema_version" ≠ some (.str s)))

/-- The error-message surface of a category labeled `label`: the three
documented templates plus the malformed-identifier template of the
version extractors. -/
def msgShape (label : String) (e : String) : Prop :=
  e = s!"Not a {label}.json" ∨
    (∃ k : Nat, e = s!"Not a {label}.json v{k}") ∨
    (∃ v : Nat, e = s!"Unsupported {label} version: {v}") ∨
    (∃ t : String, e = s!"Invalid dbt schema version format: {t}")

/-- A minimal structurally valid artifact of category `label` self-reporting
schema version `v`. -/
def sampleArtifact (label : String) (v : Nat) : Json :=
  .obj [("metadata", .obj [("dbt_schema_version",
    .str s!"https://schemas.getdbt.com/dbt/{label}/v{v}.json")])]

/-- A call to `parseRunResults` seen as a transformer of an arbitrary
ambient state: the module declares no mutable binding, so the translated
call returns its result and passes the ambient state through untouched. -/
def parseRunResultsCall (σ : Type) (r : Json) (st : σ) :
    Except String (Nat × Json) × σ :=
  (parseRunResults r, st)

example : parseRunResults (sampleArtifact "run-results" 6) =
    .ok (6, sampleArtifact "run-results" 6) := by rfl

example : parseRunResults (.obj []) = .error "Not a run-results.json" := by rfl

example : parseRunResultsV2 (sampleArtifact "run-results" 99) =
    .error "Not a run-results.json v2" := by rfl

example : parseRunResults (sampleArtifact "run-results" 99) =
    .error "Unsupported run-results version: 99" := by rfl

example : getRunResultsVersion "x/run-results/v01.json" = .ok 1 := by rfl

example : parseRunResults (.obj [("metadata", .obj [("dbt_schema_version",
    .str "foo")])]) = .error "Invalid dbt schema version format: foo" := by rfl

theorem dropLit_some_iff (lit : List Char) : ∀ (l r : List Char),
    dropLit lit l = some r ↔ l = lit ++ r := by
  induction lit with
  | nil => intro l r; simp [dropLit]
  | cons c cs ih =>
    intro l r
    cases l with
    | nil => simp [dropLit]
    | cons d ds =>
      by_cases hcd : c = d
      · subst hcd
        simp [dropLit, ih]
      · simp [dropLit, hcd, Ne.symm hcd]

theorem takeWhile_all_append (p : Char → Bool) (c : Char) (l2 : List Char)
    (hc : p c = false) : ∀ l1 : List Char, (∀ x ∈ l1, p x = true) →
    (l1 ++ c :: l2).takeWhile p = l1 ∧ (l1 ++ c :: l2).dropWhile p = c :: l2 := by
  intro l1
  induction l1 with
  | nil => intro _; simp [List.takeWhile_cons, List.dropWhile_cons, hc]
  | cons a l1 ih =>
    intro hall
    have ha : p a = true := hall a (by simp)
    have ih2 := ih (fun x hx => hall x (by simp [hx]))
    simp [List.takeWhile_cons, List.dropWhile_cons, ha, ih2.1, ih2.2]

theorem digitsToNat_eq_ofDigits : ∀ (ds : List Char) (a : Nat),
    ds.foldl (fun a c => a * 10 + (c.toNat - 48)) a =
      a * 10 ^ ds.length + Nat.ofDigits 10 ((ds.map (fun c => c.toNat - 48)).reverse) := by
  intro ds
  induction ds with
  | nil => intro a; simp [Nat.ofDigits]
  | cons c ds ih =>
    intro a
    have happ : Nat.ofDigits 10 ((ds.map (fun c => c.toNat - 48)).reverse ++ [c.toNat - 48]) =
        Nat.ofDigits 10 ((ds.map (fun c => c.toNat - 48)).reverse) +
          10 ^ ds.length * (c.toNat - 48) := by
      have h := @Nat.ofDigits_append 10 ((ds.map (fun c => c.toNat - 48)).reverse)
        [c.toNat - 48]
      simpa using h
    simp only [List.foldl_cons, ih, List.map_cons, List.reverse_cons, happ,
      List.length_cons]
    ring

theorem digitsToNat_spec (ds : List Char) :
    digitsToNat ds = Nat.ofDigits 10 ((ds.map (fun c => c.toNat - 48)).reverse) := by
  simpa using digitsToNat_eq_ofDigits ds 0

theorem matchVersionSuffix_some_iff (marker : String) (m0 : List Char) (c : Char)
    (hm : marker.data = m0 ++ [c]) (hc : c.isDigit = false) (s : String) (n : Nat) :
    matchVersionSuffix marker s = some n ↔
      ∃ p d : List Char, s.data = p ++ marker.data ++ d ++ ".json".data ∧ d ≠ [] ∧
        (∀ ch ∈ d, ch.isDigit = true) ∧ n = digitsToNat d := by
  constructor
  · intro h
    unfold matchVersionSuffix at h
    rcases h1 : dropLit (".json".data.reverse) s.data.reverse with _ | r1
    · rw [h1] at h; exact absurd h (by simp)
    rw [h1] at h
    simp only at h
    by_cases hds : r1.takeWhile Char.isDigit = []
    · rw [if_pos hds] at h; exact absurd h (by simp)
    rw [if_neg hds] at h
    rcases h2 : dropLit marker.data.reverse (r1.dropWhile Char.isDigit) with _ | r2
    · rw [h2] at h; exact absurd h (by simp)
    rw [h2] at h
    simp only [Option.some.injEq] at h
    have hs1 : s.data.reverse = ".json".data.reverse ++ r1 := (dropLit_some_iff ..).mp h1
    have hs2 : r1.dropWhile Char.isDigit = marker.data.reverse ++ r2 :=
      (dropLit_some_iff ..).mp h2
    have hr1 : r1 = r1.takeWhile Char.isDigit ++ (marker.data.reverse ++ r2) := by
      rw [← hs2, List.takeWhile_append_dropWhile]
    refine ⟨r2.reverse, (r1.takeWhile Char.isDigit).reverse, ?_, by simpa using hds,
      ?_, ?_⟩
    · have hsd : s.data = r1.reverse ++ ".json".data := by
        have h3 := congrArg List.reverse hs1
        simpa [List.reverse_append] using h3
      have hr1rev : r1.reverse =
          r2.reverse ++ (marker.data ++ (r1.takeWhile Char.isDigit).reverse) := by
        conv_lhs => rw [hr1]
        simp [List.reverse_append]
      rw [hsd, hr1rev]
      simp [List.append_assoc]
    · intro ch hch
      exact List.mem_takeWhile_imp (by simpa using hch)
    · rw [← h]
  · rintro ⟨p, d, hs, hdne, hdig, hn⟩
    have hsrev : s.data.reverse =
        ".json".data.reverse ++ (d.reverse ++ (c :: (m0.reverse ++ p.reverse))) := by
      rw [hs, hm]
      simp [List.reverse_append]
    have h1 : dropLit (".json".data.reverse) s.data.reverse =
        some (d.reverse ++ (c :: (m0.reverse ++ p.reverse))) :=
      (dropLit_some_iff ..).mpr hsrev
    have hdrev : ∀ x ∈ d.reverse, x.isDigit = true := by
      intro x hx; exact hdig x (by simpa using hx)
    have htw := takeWhile_all_append Char.isDigit c (m0.reverse ++ p.reverse) hc
      d.reverse hdrev
    have h2 : dropLit marker.data.reverse (c :: (m0.reverse ++ p.reverse)) =
        some p.reverse := by
      apply (dropLit_some_iff ..).mpr
      rw [hm]
      simp
    unfold matchVersionSuffix
    rw [h1]
    simp only [htw.1, htw.2]
    rw [if_neg (by simpa using hdne), h2]
    simp [hn]

theorem getArtifactVersion_error_msg (label s e : String)
    (h : getArtifactVersion label s = .error e) :
    e = s!"Invalid dbt schema version format: {s}" := by
  unfold getArtifactVersion at h
  cases hm : matchVersionSuffix ("/" ++ label ++ "/v") s with
  | none => rw [hm] at h; injection h with h; exact h.symm
  | some v => rw [hm] at h; exact absurd h (by simp)

theorem validate_error_shape (label : String) (r : Json) (exp : Option Nat)
    (e : String) (h : validateArtifactAndGetVersion label r exp = .error e) :
    msgShape label e := by
  unfold validateArtifactAndGetVersion at h
  cases h1 : (!r.truthy || !(r.typeof == "object") || !(r.hasKey "metadata")) with
  | true =>
    rw [h1] at h
    simp only [if_true] at h
    injection h with h
    exact Or.inl h.symm
  | false =>
    rw [h1] at h
    simp only [Bool.false_eq_true, if_false] at h
    cases h2 : r.getField "metadata" with
    | none =>
      rw [h2] at h
      injection h with h
      exact Or.inl h.symm
    | some md =>
      rw [h2] at h
      simp only at h
      cases h3 : (!md.truthy || !(md.typeof == "object")) with
      | true =>
        rw [h3] at h
        simp only [if_true] at h
        injection h with h
        exact Or.inl h.symm
      | false =>
        rw [h3] at h
        simp only [Bool.false_eq_true, if_false] at h
        cases h4 : md.getField "dbt_schema_version" with
        | none =>
          rw [h4] at h
          injection h with h
          exact Or.inl h.symm
        | some j =>
          rw [h4] at h
          cases j with
          | str s =>
            simp only at h
            cases h5 : getArtifactVersion label s with
            | error e2 =>
              rw [h5] at h
              injection h with h
              subst h
              exact Or.inr (Or.inr (Or.inr
                ⟨s, getArtifactVersion_error_msg label s e2 h5⟩))
            | ok v =>
              rw [h5] at h
              cases exp with
              | none => exact absurd h (by simp)
              | some k =>
                simp only at h
                by_cases hvk : v = k
                · rw [if_neg (by simp [hvk])] at h
                  exact absurd h (by simp)
                · rw [if_pos (by simp [hvk])] at h
                  injection h with h
                  exact Or.inr (Or.inl ⟨k, h.symm⟩)
          | null => injection h with h; exact Or.inl h.symm
          | bool b => injection h with h; exact Or.inl h.symm
          | num n => injection h with h; exact Or.inl h.symm
          | arr xs => injection h with h; exact Or.inl h.symm
          | obj fs => injection h with h; exact Or.inl h.symm

theorem validate_notA (label : String) (r : Json) (exp : Option Nat)
    (h : structurallyInvalid r) :
    validateArtifactAndGetVersion label r exp = .error s!"Not a {label}.json" := by
  unfold validateArtifactAndGetVersion
  rcases h with h | h | h | ⟨md, hmd, hbad⟩
  · simp [h]
  · have ht : (r.typeof == "object") = false := by simpa using h
    simp [ht]
  · have hk : r.hasKey "metadata" = false := by simp [Json.hasKey, h]
    simp [hk]
  · cases h1 : (!r.truthy || !(r.typeof == "object") || !(r.hasKey "metadata")) with
    | true => simp [h1]
    | false =>
      simp only [h1, Bool.false_eq_true, if_false, hmd]
      rcases hbad with hb | hb | hb
      · simp [hb]
      · have ht : (md.typeof == "object") = false := by simpa using hb
        simp [ht]
      · cases h3 : (!md.truthy || !(md.typeof == "object")) with
        | true => simp [h3]
        | false =>
          cases h4 : md.getField "dbt_schema_version" with
          | none => simp [h3, h4]
          | some j =>
            cases j with
            | str s => exact absurd h4 (hb s)
            | null => simp [h3, h4]
            | bool b => simp [h3, h4]
            | num n => simp [h3, h4]
            | arr xs => simp [h3, h4]
            | obj fs => simp [h3, h4]

theorem validate_some_eq (label : String) (r : Json) (k : Nat) :
    validateArtifactAndGetVersion label r (some k) =
      match validateArtifactAndGetVersion label r none with
      | .error e => .error e
      | .ok v => if v = k then .ok v else .error s!"Not a {label}.json v{k}" := by
  unfold validateArtifactAndGetVersion
  cases h1 : (!r.truthy || !(r.typeof == "object") || !(r.hasKey "metadata")) with
  | true => simp [h1]
  | false =>
    simp only [h1, Bool.false_eq_true, if_false]
    cases h2 : r.getField "metadata" with
    | none => rfl
    | some md =>
      simp only
      cases h3 : (!md.truthy || !(md.typeof == "object")) with
      | true => simp [h3]
      | false =>
        simp only [h3, Bool.false_eq_true, if_false]
        cases h4 : md.getField "dbt_schema_version" with
        | none => rfl
        | some j =>
          cases j with
          | str s =>
            simp only
            cases h5 : getArtifactVersion label s with
            | error e2 => rfl
            | ok v =>
              simp only
              by_cases hvk : v = k
              · simp [hvk]
              · simp [hvk]
          | null => rfl
          | bool b => rfl
          | num n => rfl
          | arr xs => rfl
          | obj fs => rfl

theorem dispatchRunResults_ok (k : Nat) (h1 : 1 ≤ k) (h2 : k ≤ 6) :
    dispatchRunResults (k : Int) = .ok k := by
  interval_cases k <;> rfl

theorem dispatchManifest_ok (k : Nat) (h1 : 1 ≤ k) (h2 : k ≤ 12) :
    dispatchManifest (k : Int) = .ok k := by
  interval_cases k <;> rfl

theorem dispatchSources_ok (k : Nat) (h1 : 1 ≤ k) (h2 : k ≤ 3) :
    dispatchSources (k : Int) = .ok k := by
  interval_cases k <;> rfl

theorem dispatchCatalog_ok (k : Nat) (h1 : 1 ≤ k) (h2 : k ≤ 1) :
    dispatchCatalog (k : Int) = .ok k := by
  interval_cases k
  rfl

theorem dispatchRunResults_unsupported (v : Int) (h : v ≤ 0 ∨ 6 < v) :
    dispatchRunResults v = .error s!"Unsupported run-results version: {v}" := by
  unfold dispatchRunResults
  repeat rw [if_neg (show ¬ _ by omega)]

theorem dispatchManifest_unsupported (v : Int) (h : v ≤ 0 ∨ 12 < v) :
    dispatchManifest v = .error s!"Unsupported manifest version: {v}" := by
  unfold dispatchManifest
  repeat rw [if_neg (show ¬ _ by omega)]

theorem dispatchSources_unsupported (v : Int) (h : v ≤ 0 ∨ 3 < v) :
    dispatchSources v = .error s!"Unsupported sources version: {v}" := by
  unfold dispatchSources
  repeat rw [if_neg (show ¬ _ by omega)]

theorem dispatchCatalog_unsupported (v : Int) (h : v ≤ 0 ∨ 1 < v) :
    dispatchCatalog v = .error s!"Unsupported catalog version: {v}" := by
  unfold dispatchCatalog
  repeat rw [if_neg (show ¬ _ by omega)]

theorem toString_int_coe (n : Nat) : toString ((n : Nat) : Int) = toString n := rfl

theorem parseRunResults_ok_of_validate (r : Json) (k : Nat)
    (hv : validateRunResultsAndGetVersion r none = .ok k)
    (h1 : 1 ≤ k) (h2 : k ≤ 6) : parseRunResults r = .ok (k, r) := by
  have hd := dispatchRunResults_ok k h1 h2
  unfold parseRunResults
  rw [hv]
  simp [hd]

theorem parseManifest_ok_of_validate (r : Json) (k : Nat)
    (hv : validateManifestAndGetVersion r none = .ok k)
    (h1 : 1 ≤ k) (h2 : k ≤ 12) : parseManifest r = .ok (k, r) := by
  have hd := dispatchManifest_ok k h1 h2
  unfold parseManifest
  rw [hv]
  simp [hd]

theorem parseSources_ok_of_validate (r : Json) (k : Nat)
    (hv : validateSourcesAndGetVersion r none = .ok k)
    (h1 : 1 ≤ k) (h2 : k ≤ 3) : parseSources r = .ok (k, r) := by
  have hd := dispatchSources_ok k h1 h2
  unfold parseSources
  rw [hv]
  simp [hd]

theorem parseCatalog_ok_of_validate (r : Json) (k : Nat)
    (hv : validateCatalogAndGetVersion r none = .ok k)
    (h1 : 1 ≤ k) (h2 : k ≤ 1) : parseCatalog r = .ok (k, r) := by
  have hd := dispatchCatalog_ok k h1 h2
  unfold parseCatalog
  rw [hv]
  simp [hd]

theorem parseRunResults_unsupported_of_validate (r : Json) (v : Nat)
    (hv : validateRunResultsAndGetVersion r none = .ok v)
    (h : v = 0 ∨ 6 < v) :
    parseRunResults r = .error s!"Unsupported run-results version: {v}" := by
  have hd := dispatchRunResults_unsupported (v : Int) (by omega)
  unfold parseRunResults
  rw [hv]
  simp [hd, toString_int_coe]

theorem parseManifest_unsupported_of_validate (r : Json) (v : Nat)
    (hv : validateManifestAndGetVersion r none = .ok v)
    (h : v = 0 ∨ 12 < v) :
    parseManifest r = .error s!"Unsupported manifest version: {v}" := by
  have hd := dispatchManifest_unsupported (v : Int) (by omega)
  unfold parseManifest
  rw [hv]
  simp [hd, toString_int_coe]

theorem parseSources_unsupported_of_validate (r : Json) (v : Nat)
    (hv : validateSourcesAndGetVersion r none = .ok v)
    (h : v = 0 ∨ 3 < v) :
    parseSources r = .error s!"Unsupported sources version: {v}" := by
  have hd := dispatchSources_unsupported (v : Int) (by omega)
  unfold parseSources
  rw [hv]
  simp [hd, toString_int_coe]

theorem parseCatalog_unsupported_of_validate (r : Json) (v : Nat)
    (hv : validateCatalogAndGetVersion r none = .ok v)
    (h : v = 0 ∨ 1 < v) :
    parseCatalog r = .error s!"Unsupported catalog version: {v}" := by
  have hd := dispatchCatalog_unsupported (v : Int) (by omega)
  unfold parseCatalog
  rw [hv]
  simp [hd, toString_int_coe]

theorem pinnedParse_match_of_validate (label : String) (r : Json) (v k : Nat)
    (hv : validateArtifactAndGetVersion label r none = .ok v) (hvk : v = k) :
    pinnedParse label k r = .ok (k, r) := by
  unfold pinnedParse
  rw [validate_some_eq, hv]
  simp [hvk]

theorem pinnedParse_mismatch_of_validate (label : String) (r : Json) (v k : Nat)
    (hv : validateArtifactAndGetVersion label r none = .ok v) (hvk : v ≠ k) :
    pinnedParse label k r = .error s!"Not a {label}.json v{k}" := by
  unfold pinnedParse
  rw [validate_some_eq, hv]
  simp [hvk]

theorem pinnedParse_error_shape (label : String) (k : Nat) (r : Json) (e : String)
    (h : pinnedParse label k r = .error e) : msgShape label e := by
  unfold pinnedParse at h
  cases hv : validateArtifactAndGetVersion label r (some k) with
  | error e2 =>
    rw [hv] at h
    injection h with h
    subst h
    exact validate_error_shape label r (some k) e2 hv
  | ok v => rw [hv] at h; exact absurd h (by simp)

theorem dispatchRunResults_error_msg (v : Int) (e : String)
    (h : dispatchRunResults v = .error e) :
    e = s!"Unsupported run-results version: {v}" := by
  unfold dispatchRunResults at h
  split_ifs at h
  all_goals injection h with h2
  all_goals exact h2.symm

theorem dispatchManifest_error_msg (v : Int) (e : String)
    (h : dispatchManifest v = .error e) :
    e = s!"Unsupported manifest version: {v}" := by
  unfold dispatchManifest at h
  by_cases h1 : v = 1
  · rw [if_pos h1] at h
    exact Except.noConfusion h
  rw [if_neg h1] at h
  by_cases h2 : v = 2
  · rw [if_pos h2] at h
    exact Except.noConfusion h
  rw [if_neg h2] at h
  by_cases h3 : v = 3
  · rw [if_pos h3] at h
    exact Except.noConfusion h
  rw [if_neg h3] at h
  by_cases h4 : v = 4
  · rw [if_pos h4] at h
    exact Except.noConfusion h
  rw [if_neg h4] at h
  by_cases h5 : v = 5
  · rw [if_pos h5] at h
    exact Except.noConfusion h
  rw [if_neg h5] at h
  by_cases h6 : v = 6
  · rw [if_pos h6] at h
    exact Except.noConfusion h
  rw [if_neg h6] at h
  by_cases h7 : v = 7
  · rw [if_pos h7] at h
    exact Except.noConfusion h
  rw [if_neg h7] at h
  by_cases h8 : v = 8
  · rw [if_pos h8] at h
    exact Except.noConfusion h
  rw [if_neg h8] at h
  by_cases h9 : v = 9
  · rw [if_pos h9] at h
    exact Except.noConfusion h
  rw [if_neg h9] at h
  by_cases h10 : v = 10
  · rw [if_pos h10] at h
    exact Except.noConfusion h
  rw [if_neg h10] at h
  by_cases h11 : v = 11
  · rw [if_pos h11] at h
    exact Except.noConfusion h
  rw [if_neg h11] at h
  by_cases h12 : v = 12
  · rw [if_pos h12] at h
    exact Except.noConfusion h
  rw [if_neg h12] at h
  injection h with h2
  exact h2.symm

theorem dispatchSources_error_msg (v : Int) (e : String)
    (h : dispatchSources v = .error e) :
    e = s!"Unsupported sources version: {v}" := by
  unfold dispatchSources at h
  split_ifs at h
  all_goals injection h with h2
  all_goals exact h2.symm

theorem dispatchCatalog_error_msg (v : Int) (e : String)
    (h : dispatchCatalog v = .error e) :
    e = s!"Unsupported catalog version: {v}" := by
  unfold dispatchCatalog at h
  split_ifs at h
  all_goals injection h with h2
  all_goals exact h2.symm

theorem parseRunResults_error_shape (r : Json) (e : String)
    (h : parseRunResults r = .error e) : msgShape "run-results" e := by
  unfold parseRunResults at h
  cases hv : validateRunResultsAndGetVersion r none with
  | error e2 =>
    rw [hv] at h
    injection h with h
    subst h
    exact validate_error_shape "run-results" r none e2 hv
  | ok v =>
    rw [hv] at h
    simp only at h
    cases hd : dispatchRunResults (v : Int) with
    | error e2 =>
      rw [hd] at h
      injection h with h
      subst h
      have hm := dispatchRunResults_error_msg (v : Int) e2 hd
      refine Or.inr (Or.inr (Or.inl ⟨v, ?_⟩))
      rw [hm]
      rfl
    | ok t => rw [hd] at h; exact absurd h (by simp)

theorem parseManifest_error_shape (r : Json) (e : String)
    (h : parseManifest r = .error e) : msgShape "manifest" e := by
  unfold parseManifest at h
  cases hv : validateManifestAndGetVersion r none with
  | error e2 =>
    rw [hv] at h
    injection h with h
    subst h
    exact validate_error_shape "manifest" r none e2 hv
  | ok v =>
    rw [hv] at h
    simp only at h
    cases hd : dispatchManifest (v : Int) with
    | error e2 =>
      rw [hd] at h
      injection h with h
      subst h
      have hm := dispatchManifest_error_msg (v : Int) e2 hd
      refine Or.inr (Or.inr (Or.inl ⟨v, ?_⟩))
      rw [hm]
      rfl
    | ok t => rw [hd] at h; exact absurd h (by simp)

theorem parseSources_error_shape (r : Json) (e : String)
    (h : parseSources r = .error e) : msgShape "sources" e := by
  unfold parseSources at h
  cases hv : validateSourcesAndGetVersion r none with
  | error e2 =>
    rw [hv] at h
    injection h with h
    subst h
    exact validate_error_shape "sources" r none e2 hv
  | ok v =>
    rw [hv] at h
    simp only at h
    cases hd : dispatchSources (v : Int) with
    | error e2 =>
      rw [hd] at h
      injection h with h
      subst h
      have hm := dispatchSources_error_msg (v : Int) e2 hd
      refine Or.inr (Or.inr (Or.inl ⟨v, ?_⟩))
      rw [hm]
      rfl
    | ok t => rw [hd] at h; exact absurd h (by simp)

theorem parseCatalog_error_shape (r : Json) (e : String)
    (h : parseCatalog r = .error e) : msgShape "catalog" e := by
  unfold parseCatalog at h
  cases hv : validateCatalogAndGetVersion r none with
  | error e2 =>
    rw [hv] at h
    injection h with h
    subst h
    exact validate_error_shape "catalog" r none e2 hv
  | ok v =>
    rw [hv] at h
    simp only at h
    cases hd : dispatchCatalog (v : Int) with
    | error e2 =>
      rw [hd] at h
      injection h with h
      subst h
      have hm := dispatchCatalog_error_msg (v : Int) e2 hd
      refine Or.inr (Or.inr (Or.inl ⟨v, ?_⟩))
      rw [hm]
      rfl
    | ok t => rw [hd] at h; exact absurd h (by simp)

/-- C1: whenever an auto-detect parser succeeds, the returned value is the
input object itself — relabeled with a version tag but not transformed, so
its serialization is identical to the input's; this holds for every
category's parse function. -/
theorem c1_roundtrip_identity :
    ∀ (r : Json) (p : Nat × Json),
      (parseRunResults r = .ok p → p.2 = r) ∧
      (parseManifest r = .ok p → p.2 = r) ∧
      (parseSources r = .ok p → p.2 = r) ∧
      (parseCatalog r = .ok p → p.2 = r) := by
  intro r p
  refine ⟨?_, ?_, ?_, ?_⟩
  · intro h
    unfold parseRunResults at h
    cases hv : validateRunResultsAndGetVersion r none with
    | error e => rw [hv] at h; exact absurd h (by simp)
    | ok v =>
      rw [hv] at h
      simp only at h
      cases hd : dispatchRunResults (v : Int) with
      | error e => rw [hd] at h; exact absurd h (by simp)
      | ok t => rw [hd] at h; simp only at h; injection h with h2; rw [← h2]
  · intro h
    unfold parseManifest at h
    cases hv : validateManifestAndGetVersion r none with
    | error e => rw [hv] at h; exact absurd h (by simp)
    | ok v =>
      rw [hv] at h
      simp only at h
      cases hd : dispatchManifest (v : Int) with
      | error e => rw [hd] at h; exact absurd h (by simp)
      | ok t => rw [hd] at h; simp only at h; injection h with h2; rw [← h2]
  · intro h
    unfold parseSources at h
    cases hv : validateSourcesAndGetVersion r none with
    | error e => rw [hv] at h; exact absurd h (by simp)
    | ok v =>
      rw [hv] at h
      simp only at h
      cases hd : dispatchSources (v : Int) with
      | error e => rw [hd] at h; exact absurd h (by simp)
      | ok t => rw [hd] at h; simp only at h; injection h with h2; rw [← h2]
  · intro h
    unfold parseCatalog at h
    cases hv : validateCatalogAndGetVersion r none with
    | error e => rw [hv] at h; exact absurd h (by simp)
    | ok v =>
      rw [hv] at h
      simp only at h
      cases hd : dispatchCatalog (v : Int) with
      | error e => rw [hd] at h; exact absurd h (by simp)
      | ok t => rw [hd] at h; simp only at h; injection h with h2; rw [← h2]

/-- Witness for C1 at a concrete valid v6 run-results artifact. -/
theorem c1_roundtrip_identity_witness :
    ((6 : Nat), sampleArtifact "run-results" 6).2 = sampleArtifact "run-results" 6 :=
  (c1_roundtrip_identity (sampleArtifact "run-results" 6)
    (6, sampleArtifact "run-results" 6)).1 (by rfl)

/-- C8: the structural guard runs before any version logic: every
structurally invalid input (including the empty object and an object with
empty metadata) makes each auto-detect parser fail with exactly
`Not a {artifact}.json`, never with a version-related message. -/
theorem c8_structural_guard_precedes :
    ∀ r : Json, structurallyInvalid r →
      parseRunResults r = .error "Not a run-results.json" ∧
      parseManifest r = .error "Not a manifest.json" ∧
      parseSources r = .error "Not a sources.json" ∧
      parseCatalog r = .error "Not a catalog.json" := by
  intro r h
  refine ⟨?_, ?_, ?_, ?_⟩
  · unfold parseRunResults validateRunResultsAndGetVersion
    rw [validate_notA "run-results" r none h]
    rfl
  · unfold parseManifest validateManifestAndGetVersion
    rw [validate_notA "manifest" r none h]
    rfl
  · unfold parseSources validateSourcesAndGetVersion
    rw [validate_notA "sources" r none h]
    rfl
  · unfold parseCatalog validateCatalogAndGetVersion
    rw [validate_notA "catalog" r none h]
    rfl

/-- Witness for C8 at the two concrete inputs of the spec:
the empty object and an object whose metadata is empty. -/
theorem c8_structural_guard_precedes_witness :
    parseRunResults (.obj []) = .error "Not a run-results.json" ∧
    parseCatalog (.obj [("metadata", .obj [])]) = .error "Not a catalog.json" :=
  ⟨(c8_structural_guard_precedes (.obj []) (Or.inr (Or.inr (Or.inl rfl)))).1,
   (c8_structural_guard_precedes (.obj [("metadata", .obj [])])
     (Or.inr (Or.inr (Or.inr ⟨.obj [], rfl,
       Or.inr (Or.inr (fun _ h => Option.noConfusion h))⟩)))).2.2.2⟩

/-- C4: every version-pinned entry point runs the same guard-first algorithm
as auto-detect: on every structurally invalid input it fails with
`Not a {category}.json`, exactly as the auto-detect parser does. -/
theorem c4_pinned_structural_guard :
    ∀ r : Json, structurallyInvalid r →
      (∀ (label : String) (k : Nat),
        pinnedParse label k r = .error s!"Not a {label}.json") ∧
      parseRunResults r = .error "Not a run-results.json" ∧
      parseManifest r = .error "Not a manifest.json" ∧
      parseSources r = .error "Not a sources.json" ∧
      parseCatalog r = .error "Not a catalog.json" := by
  intro r h
  refine ⟨?_, ?_, ?_, ?_, ?_⟩
  · intro label k
    unfold pinnedParse
    rw [validate_notA label r (some k) h]
  · unfold parseRunResults validateRunResultsAndGetVersion
    rw [validate_notA "run-results" r none h]
    rfl
  · unfold parseManifest validateManifestAndGetVersion
    rw [validate_notA "manifest" r none h]
    rfl
  · unfold parseSources validateSourcesAndGetVersion
    rw [validate_notA "sources" r none h]
    rfl
  · unfold parseCatalog validateCatalogAndGetVersion
    rw [validate_notA "catalog" r none h]
    rfl

/-- Witness for C4: pinned parsers on the empty object and on empty
metadata fail with the structural-guard message. -/
theorem c4_pinned_structural_guard_witness :
    parseRunResultsV1 (.obj []) = .error "Not a run-results.json" ∧
    parseManifestV12 (.obj [("metadata", .obj [])]) = .error "Not a manifest.json" :=
  ⟨(c4_pinned_structural_guard (.obj []) (Or.inr (Or.inr (Or.inl rfl)))).1
      "run-results" 1,
   (c4_pinned_structural_guard (.obj [("metadata", .obj [])])
     (Or.inr (Or.inr (Or.inr ⟨.obj [], rfl,
       Or.inr (Or.inr (fun _ h => Option.noConfusion h))⟩)))).1 "manifest" 12⟩

/-- C9: every entry point is deterministic and stateless across calls:
a call leaves any ambient state untouched, and a second call on the same
input returns the same observable result. -/
theorem c9_stateless_idempotence :
    ∀ (σ : Type) (st : σ) (r : Json),
      (parseRunResultsCall σ r st).2 = st ∧
      (parseRunResultsCall σ r ((parseRunResultsCall σ r st).2)).1 =
        (parseRunResultsCall σ r st).1 := by
  intro σ st r
  exact ⟨rfl, rfl⟩

theorem getArtifactVersion_ok_iff (label : String) (m0 : List Char) (c : Char)
    (hm : ("/" ++ label ++ "/v").data = m0 ++ [c]) (hc : c.isDigit = false)
    (s : String) (n : Nat) :
    getArtifactVersion label s = .ok n ↔
      ∃ p d : List Char,
        s.data = p ++ ("/" ++ label ++ "/v").data ++ d ++ ".json".data ∧ d ≠ [] ∧
        (∀ ch ∈ d, ch.isDigit = true) ∧
        n = Nat.ofDigits 10 ((d.map (fun ch => ch.toNat - 48)).reverse) := by
  have hiff := matchVersionSuffix_some_iff ("/" ++ label ++ "/v") m0 c hm hc s n
  constructor
  · intro h
    unfold getArtifactVersion at h
    cases hms : matchVersionSuffix ("/" ++ label ++ "/v") s with
    | none => rw [hms] at h; exact absurd h (by simp)
    | some v =>
      rw [hms] at h
      injection h with h2
      subst h2
      obtain ⟨p, d, h1, h2, h3, h4⟩ := hiff.mp hms
      exact ⟨p, d, h1, h2, h3, by rw [h4, digitsToNat_spec]⟩
  · rintro ⟨p, d, h1, h2, h3, h4⟩
    have hn : n = digitsToNat d := by rw [digitsToNat_spec]; exact h4
    have hms := hiff.mpr ⟨p, d, h1, h2, h3, hn⟩
    unfold getArtifactVersion
    rw [hms]

/-- C7: the version extractor succeeds exactly when the identifier string
ends with `/<category-path-segment>/v`, one or more decimal digits, and
`.json`; on success it returns the decimal value of the digit run (leading
zeros accepted), irrespective of what precedes the suffix; on any other
string it fails with the malformed-identifier message. Stated for the
run_results and sources extractors. -/
theorem c7_version_extractor_characterization :
    ∀ (s : String) (n : Nat),
      (getRunResultsVersion s = .ok n ↔
        ∃ p d : List Char,
          s.data = p ++ "/run-results/v".data ++ d ++ ".json".data ∧ d ≠ [] ∧
          (∀ c ∈ d, c.isDigit = true) ∧
          n = Nat.ofDigits 10 ((d.map (fun c => c.toNat - 48)).reverse)) ∧
      (getSourcesVersion s = .ok n ↔
        ∃ p d : List Char,
          s.data = p ++ "/sources/v".data ++ d ++ ".json".data ∧ d ≠ [] ∧
          (∀ c ∈ d, c.isDigit = true) ∧
          n = Nat.ofDigits 10 ((d.map (fun c => c.toNat - 48)).reverse)) ∧
      (∀ e, getRunResultsVersion s = .error e →
        e = s!"Invalid dbt schema version format: {s}") ∧
      (∀ e, getSourcesVersion s = .error e →
        e = s!"Invalid dbt schema version format: {s}") := by
  intro s n
  refine ⟨?_, ?_,
    fun e h => getArtifactVersion_error_msg "run-results" s e h,
    fun e h => getArtifactVersion_error_msg "sources" s e h⟩
  · exact getArtifactVersion_ok_iff "run-results" ("/run-results/".data) 'v'
      (by decide) (by decide) s n
  · exact getArtifactVersion_ok_iff "sources" ("/sources/".data) 'v'
      (by decide) (by decide) s n

/-- Witness for C7: a leading-zero identifier parses to 1 and decomposes
as prefix, marker, digit run, and the `.json` tail. -/
theorem c7_version_extractor_characterization_witness :
    ∃ p d : List Char,
      ("x/run-results/v01.json").data = p ++ "/run-results/v".data ++ d ++ ".json".data ∧
      d ≠ [] ∧ (∀ c ∈ d, c.isDigit = true) ∧
      1 = Nat.ofDigits 10 ((d.map (fun c => c.toNat - 48)).reverse) :=
  (c7_version_extractor_characterization "x/run-results/v01.json" 1).1.mp (by rfl)

/-- C2 counterexample: a structurally valid object whose schema identifier
does not match the version pattern makes the auto-detect parser throw
`Invalid dbt schema version format: foo` — a message outside the claimed
closed set of three templates. -/
theorem c2_closed_error_set_counterexample :
    parseRunResults (.obj [("metadata", .obj [("dbt_schema_version", .str "foo")])]) =
      .error "Invalid dbt schema version format: foo" ∧
    "Invalid dbt schema version format: foo" ≠ "Not a run-results.json" ∧
    (∀ k : Nat, "Invalid dbt schema version format: foo" ≠
      s!"Not a run-results.json v{k}") ∧
    (∀ v : Nat, "Invalid dbt schema version format: foo" ≠
      s!"Unsupported run-results version: {v}") := by
  refine ⟨by rfl, by decide, ?_, ?_⟩
  · intro k h
    have h2 := congrArg (fun s : String => s.data.head?) h
    have hL : ("Invalid dbt schema version format: foo" : String).data.head? =
        some 'I' := rfl
    have hR : ∀ t : String,
        ((toString "Not a run-results.json v" ++ t) ++ toString "").data.head? =
          some 'N' := by
      intro t
      rw [String.data_append, String.data_append]
      rfl
    have h3 : some 'I' = some 'N' := (hL.symm.trans h2).trans (hR (toString k))
    exact absurd h3 (by decide)
  · intro v h
    have h2 := congrArg (fun s : String => s.data.head?) h
    have hL : ("Invalid dbt schema version format: foo" : String).data.head? =
        some 'I' := rfl
    have hR : ∀ t : String,
        ((toString "Unsupported run-results version: " ++ t) ++ toString "").data.head? =
          some 'U' := by
      intro t
      rw [String.data_append, String.data_append]
      rfl
    have h3 : some 'I' = some 'U' := (hL.symm.trans h2).trans (hR (toString v))
    exact absurd h3 (by decide)

/-- C2 (amended): every error thrown by any entry point — auto-detect or
version-pinned, in any category — carries a message matching one of FOUR
literal templates: `Not a {artifact}.json`, `Not a {artifact}.json v{N}`,
`Unsupported {artifact} version: {N}`, or
`Invalid dbt schema version format: {s}`. -/
theorem c2_error_message_surface :
    ∀ (r : Json) (e : String),
      (parseRunResults r = .error e → msgShape "run-results" e) ∧
      (parseManifest r = .error e → msgShape "manifest" e) ∧
      (parseSources r = .error e → msgShape "sources" e) ∧
      (parseCatalog r = .error e → msgShape "catalog" e) ∧
      (∀ (label : String) (k : Nat),
        pinnedParse label k r = .error e → msgShape label e) := by
  intro r e
  exact ⟨parseRunResults_error_shape r e, parseManifest_error_shape r e,
    parseSources_error_shape r e, parseCatalog_error_shape r e,
    fun label k h => pinnedParse_error_shape label k r e h⟩

/-- Witness for C2 (amended) at the malformed-identifier input. -/
theorem c2_error_message_surface_witness :
    msgShape "run-results" "Invalid dbt schema version format: foo" :=
  ((c2_error_message_surface
    (.obj [("metadata", .obj [("dbt_schema_version", .str "foo")])])
    "Invalid dbt schema version format: foo").1) (by rfl)

/-- C3: dispatch is total on the supported range and partial outside it:
for every integer k in [1, N] the dispatch step maps k to that version's
tag and the parse succeeds on a structurally valid input carrying version
k; for every integer outside [1, N] dispatch fails with
`Unsupported {artifact} version: {k}`. -/
theorem c3_dispatch_totality :
    (∀ k : Nat, 1 ≤ k → k ≤ 6 →
      dispatchRunResults (k : Int) = .ok k ∧
      ∀ r : Json, validateRunResultsAndGetVersion r none = .ok k →
        parseRunResults r = .ok (k, r)) ∧
    (∀ j : Int, j ≤ 0 ∨ 6 < j →
      dispatchRunResults j = .error s!"Unsupported run-results version: {j}") ∧
    (∀ k : Nat, 1 ≤ k → k ≤ 12 →
      dispatchManifest (k : Int) = .ok k ∧
      ∀ r : Json, validateManifestAndGetVersion r none = .ok k →
        parseManifest r = .ok (k, r)) ∧
    (∀ j : Int, j ≤ 0 ∨ 12 < j →
      dispatchManifest j = .error s!"Unsupported manifest version: {j}") ∧
    (∀ k : Nat, 1 ≤ k → k ≤ 3 →
      dispatchSources (k : Int) = .ok k ∧
      ∀ r : Json, validateSourcesAndGetVersion r none = .ok k →
        parseSources r = .ok (k, r)) ∧
    (∀ j : Int, j ≤ 0 ∨ 3 < j →
      dispatchSources j = .error s!"Unsupported sources version: {j}") ∧
    (∀ k : Nat, 1 ≤ k → k ≤ 1 →
      dispatchCatalog (k : Int) = .ok k ∧
      ∀ r : Json, validateCatalogAndGetVersion r none = .ok k →
        parseCatalog r = .ok (k, r)) ∧
    (∀ j : Int, j ≤ 0 ∨ 1 < j →
      dispatchCatalog j = .error s!"Unsupported catalog version: {j}") := by
  refine ⟨?_, dispatchRunResults_unsupported, ?_, dispatchManifest_unsupported,
    ?_, dispatchSources_unsupported, ?_, dispatchCatalog_unsupported⟩
  · intro k h1 h2
    exact ⟨dispatchRunResults_ok k h1 h2,
      fun r hv => parseRunResults_ok_of_validate r k hv h1 h2⟩
  · intro k h1 h2
    exact ⟨dispatchManifest_ok k h1 h2,
      fun r hv => parseManifest_ok_of_validate r k hv h1 h2⟩
  · intro k h1 h2
    exact ⟨dispatchSources_ok k h1 h2,
      fun r hv => parseSources_ok_of_validate r k hv h1 h2⟩
  · intro k h1 h2
    exact ⟨dispatchCatalog_ok k h1 h2,
      fun r hv => parseCatalog_ok_of_validate r k hv h1 h2⟩

/-- Witness for C3: dispatch succeeds at 6 and parse succeeds on a valid v6
run-results artifact; dispatch rejects 99 and 0. -/
theorem c3_dispatch_totality_witness :
    dispatchRunResults (6 : Int) = .ok 6 ∧
    parseRunResults (sampleArtifact "run-results" 6) =
      .ok (6, sampleArtifact "run-results" 6) ∧
    dispatchManifest (99 : Int) = .error "Unsupported manifest version: 99" ∧
    dispatchRunResults (0 : Int) = .error "Unsupported run-results version: 0" :=
  ⟨(c3_dispatch_totality.1 6 (by decide) (by decide)).1,
   (c3_dispatch_totality.1 6 (by decide) (by decide)).2
     (sampleArtifact "run-results" 6) (by rfl),
   c3_dispatch_totality.2.2.2.1 99 (by decide),
   c3_dispatch_totality.2.1 0 (by decide)⟩

/-- C10: the supported version set of each category is exactly the dense
range — manifest 1..12, run_results 1..6, sources 1..3, catalog 1: the
auto-detect parser returns the tagged input for every extracted version
inside the range and throws `Unsupported {artifact} version: {v}` for
every extracted version outside it. -/
theorem c10_supported_version_sets :
    ∀ (v : Nat) (r : Json),
      (validateRunResultsAndGetVersion r none = .ok v →
        (1 ≤ v ∧ v ≤ 6 → parseRunResults r = .ok (v, r)) ∧
        (¬(1 ≤ v ∧ v ≤ 6) →
          parseRunResults r = .error s!"Unsupported run-results version: {v}")) ∧
      (validateManifestAndGetVersion r none = .ok v →
        (1 ≤ v ∧ v ≤ 12 → parseManifest r = .ok (v, r)) ∧
        (¬(1 ≤ v ∧ v ≤ 12) →
          parseManifest r = .error s!"Unsupported manifest version: {v}")) ∧
      (validateSourcesAndGetVersion r none = .ok v →
        (1 ≤ v ∧ v ≤ 3 → parseSources r = .ok (v, r)) ∧
        (¬(1 ≤ v ∧ v ≤ 3) →
          parseSources r = .error s!"Unsupported sources version: {v}")) ∧
      (validateCatalogAndGetVersion r none = .ok v →
        (1 ≤ v ∧ v ≤ 1 → parseCatalog r = .ok (v, r)) ∧
        (¬(1 ≤ v ∧ v ≤ 1) →
          parseCatalog r = .error s!"Unsupported catalog version: {v}")) := by
  intro v r
  refine ⟨fun hv => ⟨fun hin => ?_, fun hout => ?_⟩,
    fun hv => ⟨fun hin => ?_, fun hout => ?_⟩,
    fun hv => ⟨fun hin => ?_, fun hout => ?_⟩,
    fun hv => ⟨fun hin => ?_, fun hout => ?_⟩⟩
  · exact parseRunResults_ok_of_validate r v hv hin.1 hin.2
  · exact parseRunResults_unsupported_of_validate r v hv (by omega)
  · exact parseManifest_ok_of_validate r v hv hin.1 hin.2
  · exact parseManifest_unsupported_of_validate r v hv (by omega)
  · exact parseSources_ok_of_validate r v hv hin.1 hin.2
  · exact parseSources_unsupported_of_validate r v hv (by omega)
  · exact parseCatalog_ok_of_validate r v hv hin.1 hin.2
  · exact parseCatalog_unsupported_of_validate r v hv (by omega)

/-- Witness for C10: a v12 manifest parses; a v13 manifest and a v2 catalog
are rejected as unsupported. -/
theorem c10_supported_version_sets_witness :
    parseManifest (sampleArtifact "manifest" 12) =
      .ok (12, sampleArtifact "manifest" 12) ∧
    parseManifest (sampleArtifact "manifest" 13) =
      .error "Unsupported manifest version: 13" ∧
    parseCatalog (sampleArtifact "catalog" 2) =
      .error "Unsupported catalog version: 2" :=
  ⟨((c10_supported_version_sets 12 (sampleArtifact "manifest" 12)).2.1
      (by rfl)).1 (by decide),
   ((c10_supported_version_sets 13 (sampleArtifact "manifest" 13)).2.1
      (by rfl)).2 (by decide),
   ((c10_supported_version_sets 2 (sampleArtifact "catalog" 2)).2.2.2
      (by rfl)).2 (by decide)⟩

/-- C5: for a valid raw artifact of supported version k, the auto-detect
parser and the pinned parser for k both succeed and return identical
underlying data, while every other supported pinned parser j fails with
`Not a run-results.json v{j}` — j being the requested version. -/
theorem c5_version_agreement :
    ∀ (r : Json) (k : Nat),
      validateRunResultsAndGetVersion r none = .ok k → 1 ≤ k → k ≤ 6 →
      parseRunResults r = .ok (k, r) ∧
      pinnedParse "run-results" k r = .ok (k, r) ∧
      (∀ j : Nat, 1 ≤ j → j ≤ 6 → j ≠ k →
        pinnedParse "run-results" j r = .error s!"Not a run-results.json v{j}") := by
  intro r k hv h1 h2
  refine ⟨parseRunResults_ok_of_validate r k hv h1 h2, ?_, ?_⟩
  · exact pinnedParse_match_of_validate "run-results" r k k hv rfl
  · intro j hj1 hj2 hjk
    exact pinnedParse_mismatch_of_validate "run-results" r k j hv
      (fun hkj => hjk hkj.symm)

/-- Witness for C5 at a concrete valid v1 run-results artifact: auto-detect
and `parseRunResultsV1` agree, and `parseRunResultsV2` rejects it with the
spec's exact message. -/
theorem c5_version_agreement_witness :
    parseRunResults (sampleArtifact "run-results" 1) =
      .ok (1, sampleArtifact "run-results" 1) ∧
    parseRunResultsV1 (sampleArtifact "run-results" 1) =
      .ok (1, sampleArtifact "run-results" 1) ∧
    parseRunResultsV2 (sampleArtifact "run-results" 1) =
      .error "Not a run-results.json v2" := by
  have h := c5_version_agreement (sampleArtifact "run-results" 1) 1
    (by rfl) (by decide) (by decide)
  exact ⟨h.1, h.2.1, h.2.2 2 (by decide) (by decide) (by decide)⟩

/-- C6 counterexample: a structurally valid run-results artifact carrying
the out-of-range version 99, fed to `parseRunResultsV2`, fails with the
wrong-version message `Not a run-results.json v2` — not with the claimed
`Unsupported run-results version: 99`. -/
theorem c6_unsupported_pinned_counterexample :
    parseRunResultsV2 (sampleArtifact "run-results" 99) =
      .error "Not a run-results.json v2" ∧
    "Not a run-results.json v2" ≠ "Unsupported run-results version: 99" :=
  ⟨by rfl, by decide⟩

/-- C6 (amended): on a structurally valid artifact whose extracted version
v lies outside the supported range, a pinned parser `parse<X>V<k>` fails
with the VersionMismatch message `Not a {category}.json v{k}` (the pinned
comparison runs before dispatch); only the auto-detect parser surfaces
`Unsupported {artifact} version: {v}`. -/
theorem c6_pinned_out_of_range :
    ∀ (r : Json) (v k : Nat),
      validateRunResultsAndGetVersion r none = .ok v → (v = 0 ∨ 6 < v) →
      1 ≤ k → k ≤ 6 →
      pinnedParse "run-results" k r = .error s!"Not a run-results.json v{k}" ∧
      parseRunResults r = .error s!"Unsupported run-results version: {v}" := by
  intro r v k hv hout h1 h2
  refine ⟨?_, parseRunResults_unsupported_of_validate r v hv hout⟩
  exact pinnedParse_mismatch_of_validate "run-results" r v k hv (by omega)

/-- Witness for C6 (amended) at the concrete v99 artifact with k = 2. -/
theorem c6_pinned_out_of_range_witness :
    parseRunResultsV2 (sampleArtifact "run-results" 99) =
      .error "Not a run-results.json v2" ∧
    parseRunResults (sampleArtifact "run-results" 99) =
      .error "Unsupported run-results version: 99" := by
  have h := c6_pinned_out_of_range (sampleArtifact "run-results" 99) 99 2
    (by rfl) (by decide) (by decide) (by decide)
  exact ⟨h.1, h.2⟩
